import Mathlib

/-!
Shallow embedding of fireworks/scripts/lpad_run.py (the lpad CLI layer of the
FireWorks workflow engine) and proofs about its confirmation gate, selector
validation, query assembly, sorting, offline recovery and output shaping.

External collaborators (the LaunchPad object of fireworks/core/launchpad.py,
Mongo query evaluation, interactive input and the current date) are passed as
explicit parameters: input() is modelled by an answer string, the two
datetime.now().strftime calls of one command invocation by a single today
string, and the PW_CHECK_NUM configuration constant by a pwCheckNum argument.
Python exceptions are modelled with Except; a function that raises before its
store-mutating loop therefore returns an error carrying no processed ids.
-/

namespace LpadRun

/-- Python exceptions arising on the embedded code paths. -/
inductive PyErr where
  | valueError (msg : String)
  | indexError
  deriving DecidableEq, Repr

/-- Python values appearing in the query dicts and printed documents. -/
inductive PyVal where
  | int (n : Int)
  | str (s : String)
  | list (l : List PyVal)
  | dict (d : List (String × PyVal))

/-- A pymongo-style query dict, as built by the CLI. -/
abbrev Query := List (String × PyVal)

/-- Python truthiness of an optional string argument: absent and empty are falsy. -/
def strTruthy : Option String → Bool
  | none => false
  | some s => s != ""

/-- Python truthiness of an optional id-list argument (nargs produces a nonempty
list when given): absent and empty are falsy. -/
def idsTruthy : Option (List Int) → Bool
  | none => false
  | some l => !l.isEmpty

/-- sum of a list of Python bools, as in sum of a bool comprehension. -/
def boolSum (bs : List Bool) : Nat := bs.count true

/-- Python dict assignment d[k] = v: overwrite the value at an existing key in
place, otherwise append the new binding at the end. -/
def dictSet (d : List (String × PyVal)) (k : String) (v : PyVal) :
    List (String × PyVal) :=
  if d.any (fun kv => kv.1 == k) then
    d.map (fun kv => if kv.1 == k then (k, v) else kv)
  else d ++ [(k, v)]

/-- Python containment k in d for a dict. -/
def dictHas (d : List (String × PyVal)) (k : String) : Bool :=
  d.any (fun kv => kv.1 == k)

/-- Python del d[k] for a key known to be present. -/
def dictDel (d : List (String × PyVal)) (k : String) : List (String × PyVal) :=
  d.filter (fun kv => kv.1 != k)

/-- Whether an interactive answer begins with Y or y, as tested by
input(...)[0].upper() == uppercase Y in the source. -/
def startsWithY (answer : String) : Bool :=
  match answer.data with
  | [] => false
  | c :: _ => c.toUpper == 'Y'

/-- Embedding of pw_check, lpad_run.py lines 44-55.  The block first resolves
the effective password (prompting when args.password is falsy: a Y answer sets
it to todays date, any other nonempty answer raises ValueError, an empty answer
makes the Python indexing input(...)[0] raise IndexError) and then compares the
effective password with todays date.  The message text of the final ValueError
is abbreviated relative to the source format string. -/
def pw_check (pwCheckNum : Nat) (today : String) (ids : List Int)
    (password : Option String) (answer : String) (skip_pw : Bool) :
    Except PyErr (List Int) :=
  if decide (ids.length > pwCheckNum) && !skip_pw then
    let m_password := today
    match
      (if !(strTruthy password) then
        (match answer.data with
         | [] => Except.error PyErr.indexError
         | c :: _ =>
           if c.toUpper == 'Y' then Except.ok (some today)
           else Except.error (PyErr.valueError "Operation aborted by user."))
       else Except.ok password) with
    | Except.error e => Except.error e
    | Except.ok password1 =>
      if password1 != some m_password then
        Except.error (PyErr.valueError
          ("Modifying more than " ++ toString pwCheckNum ++
            " entries requires setting the --password parameter!"))
      else Except.ok ids
  else Except.ok ids

/-- The selector arguments shared by the parse_helper-based commands.  The
query field holds the ast.literal_eval result of a truthy --query string; none
stands for an absent or empty --query. -/
structure Args where
  fw_id : Option (List Int)
  name : Option String
  state : Option String
  query : Option Query
  password : Option String

/-- Embedding of parse_helper, lpad_run.py lines 58-81.  The LaunchPad is
abstracted by its two id-query functions gfw (get_fw_ids) and gwf
(get_wf_ids). -/
def parse_helper (gfw gwf : Query → List Int) (pwCheckNum : Nat) (today : String)
    (args : Args) (answer : String) (wf_mode : Bool) (skip_pw : Bool) :
    Except PyErr (List Int) :=
  if idsTruthy args.fw_id &&
      decide (1 ≤ boolSum [strTruthy args.name, strTruthy args.state, args.query.isSome]) then
    Except.error (PyErr.valueError "Cannot specify both fw_id and name/state/query)")
  else if idsTruthy args.fw_id then
    pw_check pwCheckNum today (args.fw_id.getD []) args.password answer skip_pw
  else
    let query0 : Query := args.query.getD []
    let query1 : Query :=
      if strTruthy args.name then dictSet query0 "name" (PyVal.str (args.name.getD ""))
      else query0
    let query2 : Query :=
      if strTruthy args.state then dictSet query1 "state" (PyVal.str (args.state.getD ""))
      else query1
    if wf_mode then pw_check pwCheckNum today (gwf query2) args.password answer skip_pw
    else pw_check pwCheckNum today (gfw query2) args.password answer skip_pw

/-- Embedding of defuse, lines 323-329: the ok value lists the ids passed to
lp.defuse_wf, in order; an error means the loop was never entered. -/
def defuse (gfw gwf : Query → List Int) (pwCheckNum : Nat) (today : String)
    (args : Args) (answer : String) : Except PyErr (List Int) :=
  parse_helper gfw gwf pwCheckNum today args answer true false

/-- Embedding of archive, lines 332-338: the ok value lists the ids passed to
lp.archive_wf, in order; an error means the loop was never entered. -/
def archive (gfw gwf : Query → List Int) (pwCheckNum : Nat) (today : String)
    (args : Args) (answer : String) : Except PyErr (List Int) :=
  parse_helper gfw gwf pwCheckNum today args answer true false

/-- Embedding of reignite, lines 341-347. -/
def reignite (gfw gwf : Query → List Int) (pwCheckNum : Nat) (today : String)
    (args : Args) (answer : String) : Except PyErr (List Int) :=
  parse_helper gfw gwf pwCheckNum today args answer true false

/-- Embedding of defuse_fws, lines 350-356. -/
def defuse_fws (gfw gwf : Query → List Int) (pwCheckNum : Nat) (today : String)
    (args : Args) (answer : String) : Except PyErr (List Int) :=
  parse_helper gfw gwf pwCheckNum today args answer false false

/-- Embedding of reignite_fws, lines 359-365. -/
def reignite_fws (gfw gwf : Query → List Int) (pwCheckNum : Nat) (today : String)
    (args : Args) (answer : String) : Except PyErr (List Int) :=
  parse_helper gfw gwf pwCheckNum today args answer false false

/-- Embedding of rerun_fws, lines 368-374: the ok value lists the ids passed to
lp.rerun_fw, in order. -/
def rerun_fws (gfw gwf : Query → List Int) (pwCheckNum : Nat) (today : String)
    (args : Args) (answer : String) : Except PyErr (List Int) :=
  parse_helper gfw gwf pwCheckNum today args answer false false

/-- Embedding of the selection step of track_fws, line 459: parse_helper is
called with skip_pw=True. -/
def track_fws_select (gfw gwf : Query → List Int) (pwCheckNum : Nat) (today : String)
    (args : Args) (answer : String) : Except PyErr (List Int) :=
  parse_helper gfw gwf pwCheckNum today args answer false true

/-- Embedding of reset, lines 122-128: the ok value carries the password string
that is passed on to lp.reset; an error means lp.reset is never reached.  An
empty interactive answer makes input(...)[0] raise IndexError. -/
def reset (password : Option String) (answer : String) (today : String) :
    Except PyErr String :=
  if !(strTruthy password) then
    match answer.data with
    | [] => Except.error PyErr.indexError
    | c :: _ =>
      if c.toUpper == 'Y' then Except.ok today
      else Except.error (PyErr.valueError "Operation aborted by user.")
  else Except.ok (password.getD "")

/-- Embedding of purge_wfs, lines 261-277: the ok value lists the workflow ids
passed to lp.purge_workflow, in order.  The source reads only args.fw_id,
args.name and args.state; it never calls pw_check, never reads args.password
and never prompts, so the embedding takes no password, answer or pwCheckNum
input at all. -/
def purge_wfs (gwf : Query → List Int) (args : Args) : Except PyErr (List Int) :=
  if decide (1 < boolSum [idsTruthy args.fw_id, strTruthy args.name, strTruthy args.state]) then
    Except.error (PyErr.valueError "Please specify exactly one of (fw_id, name, state)")
  else if idsTruthy args.fw_id then
    Except.ok (gwf [("nodes", PyVal.dict [("$in", PyVal.list ((args.fw_id.getD []).map PyVal.int))])])
  else if strTruthy args.name then
    Except.ok (gwf [("name", PyVal.str (args.name.getD ""))])
  else if strTruthy args.state then
    Except.ok (gwf [("state", PyVal.str (args.state.getD ""))])
  else
    Except.error (PyErr.valueError "Please specify exactly one of (fw_id, name, state)")

/-- The value stored under a key of the nested dict returned by get_children:
either a list of recursively built child dicts (when the child list is
nonempty) or the raw (empty) child id list. -/
inductive GCVal where
  | dicts (ds : List (List (Int × GCVal)))
  | ids (l : List Int)

/-- The nested dict built by get_children. -/
abbrev GCDict := List (Int × GCVal)

/-- The recursive child expansion of get_children (line 285), with the
recursive call abstracted as rec: maps rec over a child id list, propagating
fuel exhaustion. -/
def gcMap (rec : Int → Option GCDict) : List Int → Option (List GCDict)
  | [] => some []
  | i :: rest =>
    match rec i, gcMap rec rest with
    | some d, some ds => some (d :: ds)
    | _, _ => none

/-- The loop body of get_children (lines 282-288): iterate over the items of
links, and for each key equal to start store either the recursively expanded
children (nonempty child list) or the raw child list (empty). -/
def gcBuild (rec : Int → Option GCDict) (start : Int) :
    List (Int × List Int) → Option GCDict
  | [] => some []
  | (l, c) :: rest =>
    if l == start then
      if 0 < c.length then
        match gcMap rec c, gcBuild rec start rest with
        | some subs, some tail => some ((l, GCVal.dicts subs) :: tail)
        | _, _ => none
      else
        match gcBuild rec start rest with
        | some tail => some ((l, GCVal.ids c) :: tail)
        | none => none
    else gcBuild rec start rest

/-- Embedding of get_children, lpad_run.py lines 280-288.  The Python function
recurses without any guard (its max_depth parameter is accepted but never
read, and the mutable default data argument is immediately shadowed by an
empty dict); the fuel argument is an embedding device that bounds that
unguarded recursion, with none standing for non-termination within the given
fuel.  links models the Python dict as an association list with (as in a
dict) unique keys. -/
def get_children (fuel : Nat) (links : List (Int × List Int)) (start : Int)
    (max_depth : Int) : Option GCDict :=
  match fuel with
  | 0 => none
  | fuel' + 1 => gcBuild (fun i => get_children fuel' links i max_depth) start links

/-- Embedding of get_links, lpad_run.py lines 290-304.  The LaunchPad summary
is abstracted by wfIds (the result of get_wf_ids on the nodes query) and
linksOf (the integer-keyed links dict extracted from get_wf_summary_dict of
each workflow).  For every matching workflow the yaml-printed value is
get_children of its links at the hard-coded depth 3; the depth argument
models the --depth CLI option (default 1), which the function body never
reads. -/
def get_links (fuel : Nat) (wfIds : List Int) (linksOf : Int → List (Int × List Int))
    (depth : Int) : List (Option GCDict) :=
  wfIds.map (fun i => get_children fuel (linksOf i) i 3)

/-- One record of the offline_runs collection, together with the local
completion record the recovery would read: good marks a well-formed record,
bad records make the recovery of that launch fail. -/
structure OfflineRun where
  launch_id : Int
  fw_id : Int
  completed : Bool
  deprecated : Bool
  good : Bool
  deriving DecidableEq, Repr

/-- Modelled from the spec: LaunchPad.recover_offline lives in
fireworks/core/launchpad.py, which is not under src/.  Per spec section 4.6,
recover_offline(launch_id, ignore_errors) reconciles the launch from its
locally recorded completion record: on a well-formed record it applies the
complete_launch transition and yields none; on a malformed record it aborts
the reconciliation for that launch when ignore_errors is false (modelled as a
raised error), and when ignore_errors is true it skips the launch and reports
its fw_id as a recovery failure. -/
def recover_offline_lp (runs : List OfflineRun) (launch_id : Int)
    (ignore_errors : Bool) : Except PyErr (Option Int) :=
  match runs.find? (fun r => r.launch_id == launch_id) with
  | none => Except.ok none
  | some r =>
    if r.good then Except.ok none
    else if ignore_errors then Except.ok (some r.fw_id)
    else Except.error (PyErr.valueError "recovery aborted")

/-- The query of line 437: launches with completed=False and deprecated=False. -/
def pendingRuns (runs : List OfflineRun) : List OfflineRun :=
  runs.filter (fun r => !r.completed && !r.deprecated)

/-- The loop of the CLI recover_offline (lines 437-440): recover each pending
launch in order, appending every reported failure fw_id to failed_fws. -/
def recover_offline_loop (runs : List OfflineRun) (ignore_errors : Bool) :
    List OfflineRun → List Int → Except PyErr (List Int)
  | [], failed => Except.ok failed
  | r :: rest, failed =>
    match recover_offline_lp runs r.launch_id ignore_errors with
    | Except.error e => Except.error e
    | Except.ok none => recover_offline_loop runs ignore_errors rest failed
    | Except.ok (some fw) => recover_offline_loop runs ignore_errors rest (failed ++ [fw])

/-- Embedding of the CLI recover_offline, lpad_run.py lines 434-444: the ok
value is the failed_fws list reported at the end. -/
def recover_offline (runs : List OfflineRun) (ignore_errors : Bool) :
    Except PyErr (List Int) :=
  recover_offline_loop runs ignore_errors (pendingRuns runs) []

/-- The two sort keys admitted by the argparse choices of --sort and --rsort
(lines 564-567 and 578-581). -/
inductive SortKey where
  | created_on
  | updated_on
  deriving DecidableEq, Repr

/-- pymongo ASCENDING. -/
def ASCENDING : Int := 1

/-- pymongo DESCENDING. -/
def DESCENDING : Int := -1

/-- The argparse choices validation of the --sort and --rsort string arguments of
get_fws and get_wfs: only created_on and updated_on are accepted. -/
def sortChoice (s : String) : Option SortKey :=
  if s == "created_on" then some SortKey.created_on
  else if s == "updated_on" then some SortKey.updated_on
  else none

/-- The sort-spec construction shared by get_fws (lines 171-176) and get_wfs
(lines 228-233): --sort yields an ascending single-key sort, otherwise --rsort
yields a descending one, otherwise no sort. -/
def buildSort (sortArg rsortArg : Option SortKey) : Option (SortKey × Int) :=
  match sortArg with
  | some k => some (k, ASCENDING)
  | none =>
    match rsortArg with
    | some k => some (k, DESCENDING)
    | none => none

/-- A FireWork document as stored, restricted to the fields the embedded
queries and displays touch. -/
structure FwDoc where
  fw_id : Int
  name : String
  state : String
  created_on : Nat
  updated_on : Nat
  spec : PyVal
  launches : PyVal
  archived_launches : PyVal

/-- The sort-key projection on FireWork documents. -/
def fwKey : SortKey → FwDoc → Nat
  | SortKey.created_on, d => d.created_on
  | SortKey.updated_on, d => d.updated_on

/-- A Workflow document, restricted likewise. -/
structure WfDoc where
  wf_id : Int
  nodes : List Int
  name : String
  state : String
  created_on : Nat
  updated_on : Nat

/-- The sort-key projection on Workflow documents. -/
def wfKey : SortKey → WfDoc → Nat
  | SortKey.created_on, d => d.created_on
  | SortKey.updated_on, d => d.updated_on

/-- Apply an optional single-key sort spec, as a stable sort on the selected
key: direction ASCENDING sorts the key upward, any other direction (the CLI
only ever builds DESCENDING) downward. -/
def applySort {α : Type} (key : SortKey → α → Nat) (sort : Option (SortKey × Int))
    (matched : List α) : List α :=
  match sort with
  | none => matched
  | some (k, dir) =>
    if dir = ASCENDING then matched.mergeSort (fun a b => decide (key k a ≤ key k b))
    else matched.mergeSort (fun a b => decide (key k b ≤ key k a))

/-- The documents matched by an optional query: a missing query matches the
whole collection, the Mongo evaluation of a query dict is abstracted by
evalQ. -/
def matchedDocs {α : Type} (evalQ : Query → α → Bool) (db : List α)
    (query : Option Query) : List α :=
  match query with
  | none => db
  | some q => db.filter (evalQ q)

/-- Modelled from the spec: LaunchPad.get_fw_ids lives in
fireworks/core/launchpad.py, which is not under src/.  Per spec section 4.3,
it returns the FireWork ids matching an arbitrary predicate over FW
attributes, honoring an optional sort key (created_on/updated_on, ascending
or descending) and a result cap where 0 means unlimited. -/
def get_fw_ids (db : List FwDoc) (evalQ : Query → FwDoc → Bool)
    (query : Option Query) (sort : Option (SortKey × Int)) (limit : Nat) :
    List Int :=
  let sorted := applySort fwKey sort (matchedDocs evalQ db query)
  let capped := if limit = 0 then sorted else sorted.take limit
  capped.map (fun d => d.fw_id)

/-- Modelled from the spec: the count_only=True variant of get_fw_ids counts
the ids the same call would return. -/
def get_fw_count (db : List FwDoc) (evalQ : Query → FwDoc → Bool)
    (query : Option Query) (sort : Option (SortKey × Int)) (limit : Nat) : Nat :=
  (get_fw_ids db evalQ query sort limit).length

/-- Modelled from the spec: LaunchPad.get_wf_ids (fireworks/core/launchpad.py,
not under src/), the Workflow analogue of get_fw_ids, returning the workflow
ids with the same sort and cap semantics. -/
def get_wf_ids (db : List WfDoc) (evalQW : Query → WfDoc → Bool)
    (query : Option Query) (sort : Option (SortKey × Int)) (limit : Nat) :
    List Int :=
  let sorted := applySort wfKey sort (matchedDocs evalQW db query)
  let capped := if limit = 0 then sorted else sorted.take limit
  capped.map (fun d => d.wf_id)

/-- Modelled from the spec: the count_only=True variant of get_wf_ids. -/
def get_wf_count (db : List WfDoc) (evalQW : Query → WfDoc → Bool)
    (query : Option Query) (sort : Option (SortKey × Int)) (limit : Nat) : Nat :=
  (get_wf_ids db evalQW query sort limit).length

/-- fw.to_dict() of a FireWork document, with the fields the display code
touches. -/
def fwToDict (d : FwDoc) : List (String × PyVal) :=
  [("fw_id", PyVal.int d.fw_id), ("spec", d.spec), ("name", PyVal.str d.name),
   ("state", PyVal.str d.state), ("created_on", PyVal.int (Int.ofNat d.created_on)),
   ("updated_on", PyVal.int (Int.ofNat d.updated_on)), ("launches", d.launches),
   ("archived_launches", d.archived_launches)]

/-- The per-document trimming of get_fws, lines 195-201: more and less drop
archived_launches (when present) and spec; less additionally drops launches
(when present). -/
def trimFwDict (display_format : String) (d0 : List (String × PyVal)) :
    List (String × PyVal) :=
  let d1 :=
    if display_format == "more" || display_format == "less" then
      dictDel (if dictHas d0 "archived_launches" then dictDel d0 "archived_launches" else d0) "spec"
    else d0
  if display_format == "less" then
    (if dictHas d1 "launches" then dictDel d1 "launches" else d1)
  else d1

/-- The arguments of the get_fws subcommand.  display_format has argparse
default less; sort and rsort are already validated by the argparse choices
(sortChoice). -/
structure FwArgs where
  fw_id : Option (List Int)
  name : Option String
  state : Option String
  query : Option Query
  qid : Option String
  display_format : String
  max : Nat
  sort : Option SortKey
  rsort : Option SortKey

/-- The result-list assembly of get_fws, lines 186-202: display ids yields the
id list itself, count wraps the raw ids value (an int count on the plain path,
a list on the qid path) in a singleton list, and any other format renders each
id as its trimmed document. -/
def assembleFws (getFwById : Int → FwDoc) (display_format : String)
    (idsVal : PyVal) (idsList : List Int) : List PyVal :=
  if display_format == "ids" then idsList.map PyVal.int
  else if display_format == "count" then [idsVal]
  else idsList.map (fun i => PyVal.dict (trimFwDict display_format (fwToDict (getFwById i))))

/-- Embedding of get_fws, lpad_run.py lines 148-206, up to the assembled
result list (before the singleton collapse and printing).  fromQid abstracts
lp.get_fw_ids_from_reservation_id and getFwById abstracts lp.get_fw_by_id. -/
def get_fws_list (db : List FwDoc) (evalQ : Query → FwDoc → Bool)
    (fromQid : String → List Int) (getFwById : Int → FwDoc) (args0 : FwArgs) :
    Except PyErr (List PyVal) :=
  if decide (1 < boolSum [idsTruthy args0.fw_id, strTruthy args0.name,
      strTruthy args0.state, args0.query.isSome]) then
    Except.error (PyErr.valueError "Please specify exactly one of (fw_id, name, state, query)")
  else
    let args1 :=
      if boolSum [idsTruthy args0.fw_id, strTruthy args0.name,
          strTruthy args0.state, args0.query.isSome] = 0 then
        { args0 with query := some [],
                     display_format := if args0.display_format != "" then args0.display_format else "ids" }
      else args0
    if decide (1 < boolSum [idsTruthy args1.fw_id, strTruthy args1.name, strTruthy args1.qid]) then
      Except.error (PyErr.valueError "Please specify exactly one of (fw_id, name, qid)")
    else
      let args := { args1 with
        display_format := if args1.display_format != "" then args1.display_format else "more" }
      let query : Option Query :=
        if idsTruthy args.fw_id then
          some [("fw_id", PyVal.dict [("$in", PyVal.list ((args.fw_id.getD []).map PyVal.int))])]
        else if strTruthy args.name then some [("name", PyVal.str (args.name.getD ""))]
        else if strTruthy args.state then some [("state", PyVal.str (args.state.getD ""))]
        else args.query
      let sort := buildSort args.sort args.rsort
      if strTruthy args.qid then
        let ids0 := fromQid (args.qid.getD "")
        let ids :=
          match query with
          | some q =>
            if !q.isEmpty then
              get_fw_ids db evalQ
                (some (dictSet q "fw_id" (PyVal.dict [("$in", PyVal.list (ids0.map PyVal.int))])))
                sort args.max
            else ids0
          | none => ids0
        Except.ok (assembleFws getFwById args.display_format (PyVal.list (ids.map PyVal.int)) ids)
      else
        let ids := get_fw_ids db evalQ query sort args.max
        Except.ok (assembleFws getFwById args.display_format
          (PyVal.int (Int.ofNat (get_fw_count db evalQ query sort args.max))) ids)

/-- The printed value: either a bare element (after the singleton collapse) or
the list itself. -/
inductive PyOut where
  | one (v : PyVal)
  | many (l : List PyVal)

/-- The singleton collapse shared by get_fws (lines 203-204) and get_wfs
(lines 247-248): a one-element result list is replaced by its element. -/
def collapse : List PyVal → PyOut
  | [x] => PyOut.one x
  | l => PyOut.many l

/-- Embedding of get_fws including the singleton collapse: the value handed to
args.output for printing. -/
def get_fws (db : List FwDoc) (evalQ : Query → FwDoc → Bool)
    (fromQid : String → List Int) (getFwById : Int → FwDoc) (args : FwArgs) :
    Except PyErr PyOut :=
  (get_fws_list db evalQ fromQid getFwById args).map collapse

/-- The arguments of the get_wfs subcommand (the prettytable flag is excluded
output formatting). -/
structure WfArgs where
  fw_id : Option (List Int)
  name : Option String
  state : Option String
  query : Option Query
  display_format : String
  max : Nat
  sort : Option SortKey
  rsort : Option SortKey

/-- d["name"] += "--%d" % i of get_wfs line 244, on the summary dict (whose
name entry is a string). -/
def appendWfName (d : List (String × PyVal)) (i : Int) : List (String × PyVal) :=
  d.map (fun kv =>
    if kv.1 == "name" then
      match kv.2 with
      | PyVal.str s => ("name", PyVal.str (s ++ "--" ++ toString i))
      | v => ("name", v)
    else kv)

/-- Embedding of get_wfs, lpad_run.py lines 209-246, up to the assembled
result list (before the singleton collapse; the prettytable branch is excluded
output formatting, the printed value on the default path is args.output of the
collapsed list).  summary abstracts lp.get_wf_summary_dict. -/
def get_wfs_list (db : List WfDoc) (evalQW : Query → WfDoc → Bool)
    (summary : Int → String → List (String × PyVal)) (args0 : WfArgs) :
    Except PyErr (List PyVal) :=
  if decide (1 < boolSum [idsTruthy args0.fw_id, strTruthy args0.name,
      strTruthy args0.state, args0.query.isSome]) then
    Except.error (PyErr.valueError "Please specify exactly one of (fw_id, name, state, query)")
  else
    let args :=
      if boolSum [idsTruthy args0.fw_id, strTruthy args0.name,
          strTruthy args0.state, args0.query.isSome] = 0 then
        { args0 with query := some [],
                     display_format := if args0.display_format != "" then args0.display_format else "ids" }
      else
        { args0 with
          display_format := if args0.display_format != "" then args0.display_format else "more" }
    let query : Query :=
      if idsTruthy args.fw_id then
        [("nodes", PyVal.dict [("$in", PyVal.list ((args.fw_id.getD []).map PyVal.int))])]
      else if strTruthy args.name then [("name", PyVal.str (args.name.getD ""))]
      else if strTruthy args.state then [("state", PyVal.str (args.state.getD ""))]
      else args.query.getD []
    let sort := buildSort args.sort args.rsort
    if args.display_format == "ids" then
      Except.ok ((get_wf_ids db evalQW (some query) sort args.max).map PyVal.int)
    else if args.display_format == "count" then
      Except.ok [PyVal.int (Int.ofNat (get_wf_count db evalQW (some query) sort args.max))]
    else
      Except.ok ((get_wf_ids db evalQW (some query) sort args.max).map
        (fun i => PyVal.dict (appendWfName (summary i args.display_format) i)))

/-- Embedding of get_wfs including the singleton collapse: the value handed to
args.output on the non-table path. -/
def get_wfs (db : List WfDoc) (evalQW : Query → WfDoc → Bool)
    (summary : Int → String → List (String × PyVal)) (args : WfArgs) :
    Except PyErr PyOut :=
  (get_wfs_list db evalQW summary args).map collapse

/-- A LaunchPad id-query stub returning no ids, for concrete instantiation. -/
def noIds : Query → List Int := fun _ => []

/-- A LaunchPad wf-id-query stub on which every query matches the 101 workflow
ids 0..100, for concrete instantiation. -/
def manyWfIds : Query → List Int := fun _ => (List.range 101).map Int.ofNat

/-- Concrete selector: only --state FIZZLED given. -/
def argsStateOnly : Args := ⟨none, none, some "FIZZLED", none, none⟩

/-- Concrete selector: only --fw_id 1 2 3 given, no password. -/
def argsFwIds3 : Args := ⟨some [1, 2, 3], none, none, none, none⟩

/-- Concrete conflicting selector: --fw_id together with --name. -/
def argsConflict : Args := ⟨some [1], some "x", none, none, none⟩

/-- Concrete offline_runs collection: launches 2 and 4 are pending with bad
records, 1 and 3 are pending with good records, 5 is already completed. -/
def runsC4 : List OfflineRun :=
  [⟨1, 11, false, false, true⟩, ⟨2, 12, false, false, false⟩,
   ⟨3, 13, false, false, true⟩, ⟨4, 14, false, false, false⟩,
   ⟨5, 15, true, false, false⟩]

/-! Helper lemmas (not claim theorems). -/

theorem pw_check_skip (pwCheckNum : Nat) (today : String) (ids : List Int)
    (password : Option String) (answer : String) :
    pw_check pwCheckNum today ids password answer true = Except.ok ids := by
  unfold pw_check
  simp

theorem pw_check_small {pwCheckNum : Nat} {ids : List Int}
    (h : ids.length ≤ pwCheckNum) (today : String) (password : Option String)
    (answer : String) (skip_pw : Bool) :
    pw_check pwCheckNum today ids password answer skip_pw = Except.ok ids := by
  unfold pw_check
  have hd : decide (ids.length > pwCheckNum) = false := by
    simp
    omega
  simp [hd]

theorem pw_check_prompt_abort {pwCheckNum : Nat} {ids : List Int}
    {password : Option String} {answer : String} {c : Char} {rest : List Char}
    (hgt : ids.length > pwCheckNum) (hpw : strTruthy password = false)
    (hans : answer.data = c :: rest) (hc : c.toUpper ≠ 'Y') (today : String) :
    pw_check pwCheckNum today ids password answer false
      = Except.error (PyErr.valueError "Operation aborted by user.") := by
  unfold pw_check
  rw [hans]
  simp [hgt, hpw, hc]

theorem pw_check_prompt_yes {pwCheckNum : Nat} {ids : List Int}
    {password : Option String} {answer : String} {c : Char} {rest : List Char}
    (hgt : ids.length > pwCheckNum) (hpw : strTruthy password = false)
    (hans : answer.data = c :: rest) (hc : c.toUpper = 'Y') (today : String) :
    pw_check pwCheckNum today ids password answer false = Except.ok ids := by
  unfold pw_check
  rw [hans]
  simp [hgt, hpw, hc]

theorem pw_check_empty_answer {pwCheckNum : Nat} {ids : List Int}
    {password : Option String} {answer : String}
    (hgt : ids.length > pwCheckNum) (hpw : strTruthy password = false)
    (hans : answer.data = []) (today : String) :
    pw_check pwCheckNum today ids password answer false
      = Except.error PyErr.indexError := by
  unfold pw_check
  rw [hans]
  simp [hgt, hpw]

theorem pw_check_correct_password {pwCheckNum : Nat} {ids : List Int}
    {today : String} (hgt : ids.length > pwCheckNum) (ht : today ≠ "")
    (answer : String) :
    pw_check pwCheckNum today ids (some today) answer false = Except.ok ids := by
  unfold pw_check
  simp [hgt, strTruthy, ht]

theorem pw_check_wrong_password {pwCheckNum : Nat} {ids : List Int} {p today : String}
    (hgt : ids.length > pwCheckNum) (hp : p ≠ "") (hne : p ≠ today)
    (answer : String) :
    pw_check pwCheckNum today ids (some p) answer false
      = Except.error (PyErr.valueError
          ("Modifying more than " ++ toString pwCheckNum ++
            " entries requires setting the --password parameter!")) := by
  unfold pw_check
  simp [hgt, strTruthy, hp, hne]

theorem parse_helper_fwid {ids : List Int} (hids : ids ≠ [])
    (gfw gwf : Query → List Int) (pwCheckNum : Nat) (today : String)
    (password : Option String) (answer : String) (wf_mode skip_pw : Bool) :
    parse_helper gfw gwf pwCheckNum today ⟨some ids, none, none, none, password⟩
        answer wf_mode skip_pw
      = pw_check pwCheckNum today ids password answer skip_pw := by
  unfold parse_helper
  have h1 : idsTruthy (some ids) = true := by
    cases ids with
    | nil => exact absurd rfl hids
    | cons a t => rfl
  simp [h1, strTruthy, boolSum]

theorem parse_helper_conflict {args : Args}
    (h1 : idsTruthy args.fw_id = true)
    (h2 : 1 ≤ boolSum [strTruthy args.name, strTruthy args.state, args.query.isSome])
    (gfw gwf : Query → List Int) (pwCheckNum : Nat) (today : String)
    (answer : String) (wf_mode skip_pw : Bool) :
    parse_helper gfw gwf pwCheckNum today args answer wf_mode skip_pw
      = Except.error (PyErr.valueError "Cannot specify both fw_id and name/state/query)") := by
  unfold parse_helper
  simp [h1, h2]

/-! Claim theorems. -/

/-- C1 counterexample: purge_wfs, a destructive CLI operation, applies no
confirmation gate at all.  With a state selector matching 101 workflows and no
password and no interactive input available, it still purges all 101 workflows
and raises no ValueError (its embedding does not even consume a password,
answer, or threshold). -/
theorem c1_counterexample :
    purge_wfs manyWfIds argsStateOnly = Except.ok ((List.range 101).map Int.ofNat) ∧
    ((List.range 101).map Int.ofNat).length = 101 := by
  constructor
  · rfl
  · simp

/-- C1 (amended): archive demands the gate when the selection exceeds
PW_CHECK_NUM — with no truthy password, a nonempty interactive answer not
beginning with Y or y aborts with ValueError, an empty answer aborts with the
IndexError of input(...)[0], and a Y/y answer lets it proceed; with a truthy
--password it proceeds exactly when the password equals todays date and
otherwise aborts with the Modifying-more-than ValueError — every abort
happening before any lp.archive_wf call.  reset, invoked without a password,
likewise aborts before lp.reset (ValueError on a nonempty non-Y answer,
IndexError on an empty one).  purge_wfs, however, applies no gate: any
unambiguous selection is purged unconditionally. -/
theorem c1_gate_amended :
    (∀ (gfw gwf : Query → List Int) (pwCheckNum : Nat) (today : String)
       (ids : List Int) (password : Option String) (answer : String)
       (c : Char) (rest : List Char),
       ids.length > pwCheckNum → strTruthy password = false →
       answer.data = c :: rest → c.toUpper ≠ 'Y' →
       archive gfw gwf pwCheckNum today ⟨some ids, none, none, none, password⟩ answer
         = Except.error (PyErr.valueError "Operation aborted by user.")) ∧
    (∀ (gfw gwf : Query → List Int) (pwCheckNum : Nat) (today : String)
       (ids : List Int) (password : Option String) (answer : String)
       (c : Char) (rest : List Char),
       ids.length > pwCheckNum → strTruthy password = false →
       answer.data = c :: rest → c.toUpper = 'Y' →
       archive gfw gwf pwCheckNum today ⟨some ids, none, none, none, password⟩ answer
         = Except.ok ids) ∧
    (∀ (gfw gwf : Query → List Int) (pwCheckNum : Nat) (today : String)
       (ids : List Int) (answer : String),
       ids.length > pwCheckNum → today ≠ "" →
       archive gfw gwf pwCheckNum today ⟨some ids, none, none, none, some today⟩ answer
         = Except.ok ids) ∧
    (∀ (gfw gwf : Query → List Int) (pwCheckNum : Nat) (today : String)
       (ids : List Int) (password : Option String) (answer : String),
       ids.length > pwCheckNum → strTruthy password = false →
       answer.data = [] →
       archive gfw gwf pwCheckNum today ⟨some ids, none, none, none, password⟩ answer
         = Except.error PyErr.indexError) ∧
    (∀ (gfw gwf : Query → List Int) (pwCheckNum : Nat) (today : String)
       (ids : List Int) (p : String) (answer : String),
       ids.length > pwCheckNum → p ≠ "" → p ≠ today →
       archive gfw gwf pwCheckNum today ⟨some ids, none, none, none, some p⟩ answer
         = Except.error (PyErr.valueError
             ("Modifying more than " ++ toString pwCheckNum ++
               " entries requires setting the --password parameter!"))) ∧
    (∀ (answer today : String) (c : Char) (rest : List Char),
       answer.data = c :: rest → c.toUpper ≠ 'Y' →
       reset none answer today
         = Except.error (PyErr.valueError "Operation aborted by user.")) ∧
    (∀ today : String, reset none "" today = Except.error PyErr.indexError) ∧
    (∀ (gwf : Query → List Int) (s : String), s ≠ "" →
       purge_wfs gwf ⟨none, none, some s, none, none⟩
         = Except.ok (gwf [("state", PyVal.str s)])) := by
  refine ⟨?_, ?_, ?_, ?_, ?_, ?_, fun _ => rfl, ?_⟩
  · intro gfw gwf pwCheckNum today ids password answer c rest hgt hpw hans hc
    have hne : ids ≠ [] := by
      intro h
      subst h
      simp at hgt
    unfold archive
    rw [parse_helper_fwid hne gfw gwf pwCheckNum today password answer true false]
    exact pw_check_prompt_abort hgt hpw hans hc today
  · intro gfw gwf pwCheckNum today ids password answer c rest hgt hpw hans hc
    have hne : ids ≠ [] := by
      intro h
      subst h
      simp at hgt
    unfold archive
    rw [parse_helper_fwid hne gfw gwf pwCheckNum today password answer true false]
    exact pw_check_prompt_yes hgt hpw hans hc today
  · intro gfw gwf pwCheckNum today ids answer hgt ht
    have hne : ids ≠ [] := by
      intro h
      subst h
      simp at hgt
    unfold archive
    rw [parse_helper_fwid hne gfw gwf pwCheckNum today (some today) answer true false]
    exact pw_check_correct_password hgt ht answer
  · intro gfw gwf pwCheckNum today ids password answer hgt hpw hans
    have hne : ids ≠ [] := by
      intro h
      subst h
      simp at hgt
    unfold archive
    rw [parse_helper_fwid hne gfw gwf pwCheckNum today password answer true false]
    exact pw_check_empty_answer hgt hpw hans today
  · intro gfw gwf pwCheckNum today ids p answer hgt hp hne2
    have hne : ids ≠ [] := by
      intro h
      subst h
      simp at hgt
    unfold archive
    rw [parse_helper_fwid hne gfw gwf pwCheckNum today (some p) answer true false]
    exact pw_check_wrong_password hgt hp hne2 answer
  · intro answer today c rest hans hc
    unfold reset
    rw [hans]
    simp [strTruthy, hc]
  · intro gwf s hs
    unfold purge_wfs
    simp [idsTruthy, strTruthy, boolSum, hs]

/-- C1 witness for the amended theorem: against threshold 2 a selection of 3
ids aborts archive with ValueError on the answer no, with IndexError on the
empty answer, and with the Modifying-more-than ValueError on a stale
password; the answer q aborts reset. -/
theorem c1_gate_witness :
    ([1, 2, 3] : List Int).length > 2 ∧
    archive noIds noIds 2 "2026-10-12" ⟨some [1, 2, 3], none, none, none, none⟩ "no"
      = Except.error (PyErr.valueError "Operation aborted by user.") ∧
    archive noIds noIds 2 "2026-10-12" ⟨some [1, 2, 3], none, none, none, none⟩ ""
      = Except.error PyErr.indexError ∧
    archive noIds noIds 2 "2026-10-12"
        ⟨some [1, 2, 3], none, none, none, some "2011-01-01"⟩ "x"
      = Except.error (PyErr.valueError
          ("Modifying more than " ++ toString 2 ++
            " entries requires setting the --password parameter!")) ∧
    reset none "q" "2026-10-12"
      = Except.error (PyErr.valueError "Operation aborted by user.") :=
  ⟨by decide,
   c1_gate_amended.1 noIds noIds 2 "2026-10-12" [1, 2, 3] none "no" 'n' ['o']
     (by decide) rfl rfl (by decide),
   c1_gate_amended.2.2.2.1 noIds noIds 2 "2026-10-12" [1, 2, 3] none ""
     (by decide) rfl rfl,
   c1_gate_amended.2.2.2.2.1 noIds noIds 2 "2026-10-12" [1, 2, 3] "2011-01-01" "x"
     (by decide) (by decide) (by decide),
   c1_gate_amended.2.2.2.2.2.1 "q" "2026-10-12" 'q' [] rfl (by decide)⟩

/-- C2 counterexample: rerun_fws, defuse and reignite do pass through the
confirmation gate.  With threshold 2, a selection of the 3 ids 1 2 3 and no
password, an interactive answer N makes each of them raise ValueError, and the
answer Y is what lets rerun_fws proceed — so the reversible commands do prompt
and do demand the gate, contradicting the claim. -/
theorem c2_counterexample :
    rerun_fws noIds noIds 2 "2026-10-12" argsFwIds3 "N"
      = Except.error (PyErr.valueError "Operation aborted by user.") ∧
    rerun_fws noIds noIds 2 "2026-10-12" argsFwIds3 "Y" = Except.ok [1, 2, 3] ∧
    defuse noIds noIds 2 "2026-10-12" argsFwIds3 "N"
      = Except.error (PyErr.valueError "Operation aborted by user.") ∧
    reignite noIds noIds 2 "2026-10-12" argsFwIds3 "N"
      = Except.error (PyErr.valueError "Operation aborted by user.") :=
  ⟨rfl, rfl, rfl, rfl⟩

/-- C2 (amended): defuse, reignite and rerun_fws route their selection through
the same pw_check gate as archive (parse_helper with skip_pw false): a
selection of at most PW_CHECK_NUM ids proceeds untouched for every password
and answer, while for a larger selection, absent a truthy password, a nonempty
answer not beginning with Y or y raises ValueError and an empty answer raises
the IndexError of input(...)[0], and a truthy --password not equal to todays
date raises the Modifying-more-than ValueError — in every abort case before
any mutation. -/
theorem c2_gate_amended :
    (∀ (gfw gwf : Query → List Int) (pwCheckNum : Nat) (today : String)
       (ids : List Int) (password : Option String) (answer : String),
       ids ≠ [] → ids.length ≤ pwCheckNum →
       rerun_fws gfw gwf pwCheckNum today ⟨some ids, none, none, none, password⟩ answer
         = Except.ok ids) ∧
    (∀ (gfw gwf : Query → List Int) (pwCheckNum : Nat) (today : String)
       (ids : List Int) (password : Option String) (answer : String)
       (c : Char) (rest : List Char),
       ids.length > pwCheckNum → strTruthy password = false →
       answer.data = c :: rest → c.toUpper ≠ 'Y' →
       rerun_fws gfw gwf pwCheckNum today ⟨some ids, none, none, none, password⟩ answer
         = Except.error (PyErr.valueError "Operation aborted by user.")) ∧
    (∀ (gfw gwf : Query → List Int) (pwCheckNum : Nat) (today : String)
       (ids : List Int) (password : Option String) (answer : String),
       ids.length > pwCheckNum → strTruthy password = false →
       answer.data = [] →
       rerun_fws gfw gwf pwCheckNum today ⟨some ids, none, none, none, password⟩ answer
         = Except.error PyErr.indexError) ∧
    (∀ (gfw gwf : Query → List Int) (pwCheckNum : Nat) (today : String)
       (ids : List Int) (p : String) (answer : String),
       ids.length > pwCheckNum → p ≠ "" → p ≠ today →
       rerun_fws gfw gwf pwCheckNum today ⟨some ids, none, none, none, some p⟩ answer
         = Except.error (PyErr.valueError
             ("Modifying more than " ++ toString pwCheckNum ++
               " entries requires setting the --password parameter!"))) ∧
    (∀ (gfw gwf : Query → List Int) (pwCheckNum : Nat) (today : String)
       (ids : List Int) (password : Option String) (answer : String),
       ids ≠ [] → ids.length ≤ pwCheckNum →
       defuse gfw gwf pwCheckNum today ⟨some ids, none, none, none, password⟩ answer
         = Except.ok ids) ∧
    (∀ (gfw gwf : Query → List Int) (pwCheckNum : Nat) (today : String)
       (ids : List Int) (password : Option String) (answer : String)
       (c : Char) (rest : List Char),
       ids.length > pwCheckNum → strTruthy password = false →
       answer.data = c :: rest → c.toUpper ≠ 'Y' →
       defuse gfw gwf pwCheckNum today ⟨some ids, none, none, none, password⟩ answer
         = Except.error (PyErr.valueError "Operation aborted by user.")) ∧
    (∀ (gfw gwf : Query → List Int) (pwCheckNum : Nat) (today : String)
       (ids : List Int) (password : Option String) (answer : String),
       ids.length > pwCheckNum → strTruthy password = false →
       answer.data = [] →
       defuse gfw gwf pwCheckNum today ⟨some ids, none, none, none, password⟩ answer
         = Except.error PyErr.indexError) ∧
    (∀ (gfw gwf : Query → List Int) (pwCheckNum : Nat) (today : String)
       (ids : List Int) (p : String) (answer : String),
       ids.length > pwCheckNum → p ≠ "" → p ≠ today →
       defuse gfw gwf pwCheckNum today ⟨some ids, none, none, none, some p⟩ answer
         = Except.error (PyErr.valueError
             ("Modifying more than " ++ toString pwCheckNum ++
               " entries requires setting the --password parameter!"))) ∧
    (∀ (gfw gwf : Query → List Int) (pwCheckNum : Nat) (today : String)
       (ids : List Int) (password : Option String) (answer : String),
       ids ≠ [] → ids.length ≤ pwCheckNum →
       reignite gfw gwf pwCheckNum today ⟨some ids, none, none, none, password⟩ answer
         = Except.ok ids) ∧
    (∀ (gfw gwf : Query → List Int) (pwCheckNum : Nat) (today : String)
       (ids : List Int) (password : Option String) (answer : String)
       (c : Char) (rest : List Char),
       ids.length > pwCheckNum → strTruthy password = false →
       answer.data = c :: rest → c.toUpper ≠ 'Y' →
       reignite gfw gwf pwCheckNum today ⟨some ids, none, none, none, password⟩ answer
         = Except.error (PyErr.valueError "Operation aborted by user.")) ∧
    (∀ (gfw gwf : Query → List Int) (pwCheckNum : Nat) (today : String)
       (ids : List Int) (password : Option String) (answer : String),
       ids.length > pwCheckNum → strTruthy password = false →
       answer.data = [] →
       reignite gfw gwf pwCheckNum today ⟨some ids, none, none, none, password⟩ answer
         = Except.error PyErr.indexError) ∧
    (∀ (gfw gwf : Query → List Int) (pwCheckNum : Nat) (today : String)
       (ids : List Int) (p : String) (answer : String),
       ids.length > pwCheckNum → p ≠ "" → p ≠ today →
       reignite gfw gwf pwCheckNum today ⟨some ids, none, none, none, some p⟩ answer
         = Except.error (PyErr.valueError
             ("Modifying more than " ++ toString pwCheckNum ++
               " entries requires setting the --password parameter!"))) := by
  refine ⟨?_, ?_, ?_, ?_, ?_, ?_, ?_, ?_, ?_, ?_, ?_, ?_⟩
  · intro gfw gwf pwCheckNum today ids password answer hne hle
    unfold rerun_fws
    rw [parse_helper_fwid hne gfw gwf pwCheckNum today password answer false false]
    exact pw_check_small hle today password answer false
  · intro gfw gwf pwCheckNum today ids password answer c rest hgt hpw hans hc
    have hne : ids ≠ [] := by
      intro h
      subst h
      simp at hgt
    unfold rerun_fws
    rw [parse_helper_fwid hne gfw gwf pwCheckNum today password answer false false]
    exact pw_check_prompt_abort hgt hpw hans hc today
  · intro gfw gwf pwCheckNum today ids password answer hgt hpw hans
    have hne : ids ≠ [] := by
      intro h
      subst h
      simp at hgt
    unfold rerun_fws
    rw [parse_helper_fwid hne gfw gwf pwCheckNum today password answer false false]
    exact pw_check_empty_answer hgt hpw hans today
  · intro gfw gwf pwCheckNum today ids p answer hgt hp hne2
    have hne : ids ≠ [] := by
      intro h
      subst h
      simp at hgt
    unfold rerun_fws
    rw [parse_helper_fwid hne gfw gwf pwCheckNum today (some p) answer false false]
    exact pw_check_wrong_password hgt hp hne2 answer
  · intro gfw gwf pwCheckNum today ids password answer hne hle
    unfold defuse
    rw [parse_helper_fwid hne gfw gwf pwCheckNum today password answer true false]
    exact pw_check_small hle today password answer false
  · intro gfw gwf pwCheckNum today ids password answer c rest hgt hpw hans hc
    have hne : ids ≠ [] := by
      intro h
      subst h
      simp at hgt
    unfold defuse
    rw [parse_helper_fwid hne gfw gwf pwCheckNum today password answer true false]
    exact pw_check_prompt_abort hgt hpw hans hc today
  · intro gfw gwf pwCheckNum today ids password answer hgt hpw hans
    have hne : ids ≠ [] := by
      intro h
      subst h
      simp at hgt
    unfold defuse
    rw [parse_helper_fwid hne gfw gwf pwCheckNum today password answer true false]
    exact pw_check_empty_answer hgt hpw hans today
  · intro gfw gwf pwCheckNum today ids p answer hgt hp hne2
    have hne : ids ≠ [] := by
      intro h
      subst h
      simp at hgt
    unfold defuse
    rw [parse_helper_fwid hne gfw gwf pwCheckNum today (some p) answer true false]
    exact pw_check_wrong_password hgt hp hne2 answer
  · intro gfw gwf pwCheckNum today ids password answer hne hle
    unfold reignite
    rw [parse_helper_fwid hne gfw gwf pwCheckNum today password answer true false]
    exact pw_check_small hle today password answer false
  · intro gfw gwf pwCheckNum today ids password answer c rest hgt hpw hans hc
    have hne : ids ≠ [] := by
      intro h
      subst h
      simp at hgt
    unfold reignite
    rw [parse_helper_fwid hne gfw gwf pwCheckNum today password answer true false]
    exact pw_check_prompt_abort hgt hpw hans hc today
  · intro gfw gwf pwCheckNum today ids password answer hgt hpw hans
    have hne : ids ≠ [] := by
      intro h
      subst h
      simp at hgt
    unfold reignite
    rw [parse_helper_fwid hne gfw gwf pwCheckNum today password answer true false]
    exact pw_check_empty_answer hgt hpw hans today
  · intro gfw gwf pwCheckNum today ids p answer hgt hp hne2
    have hne : ids ≠ [] := by
      intro h
      subst h
      simp at hgt
    unfold reignite
    rw [parse_helper_fwid hne gfw gwf pwCheckNum today (some p) answer true false]
    exact pw_check_wrong_password hgt hp hne2 answer

/-- C2 witness for the amended theorem: 2 selected ids with threshold 5
proceed without any password for rerun_fws; 3 ids against threshold 2 make
rerun_fws raise IndexError on the empty answer and the Modifying-more-than
ValueError on a stale password. -/
theorem c2_gate_witness :
    ([7, 8] : List Int) ≠ [] ∧ ([7, 8] : List Int).length ≤ 5 ∧
    rerun_fws noIds noIds 5 "2026-10-12" ⟨some [7, 8], none, none, none, none⟩ "whatever"
      = Except.ok [7, 8] ∧
    rerun_fws noIds noIds 2 "2026-10-12" ⟨some [1, 2, 3], none, none, none, none⟩ ""
      = Except.error PyErr.indexError ∧
    rerun_fws noIds noIds 2 "2026-10-12"
        ⟨some [1, 2, 3], none, none, none, some "2011-01-01"⟩ "x"
      = Except.error (PyErr.valueError
          ("Modifying more than " ++ toString 2 ++
            " entries requires setting the --password parameter!")) :=
  ⟨by decide, by decide,
   c2_gate_amended.1 noIds noIds 5 "2026-10-12" [7, 8] none "whatever"
     (by decide) (by decide),
   c2_gate_amended.2.2.1 noIds noIds 2 "2026-10-12" [1, 2, 3] none ""
     (by decide) rfl rfl,
   c2_gate_amended.2.2.2.1 noIds noIds 2 "2026-10-12" [1, 2, 3] "2011-01-01" "x"
     (by decide) (by decide) (by decide)⟩

/-- C3: an ambiguous selector is rejected synchronously with ValueError and
nothing is mutated: parse_helper rejects fw_id combined with any of
name/state/query (so every parse_helper-based command, here rerun_fws as the
mutating representative, errors before its mutation loop), and get_fws and
get_wfs reject more than one of fw_id/name/state/query. -/
theorem c3_ambiguous_selector :
    (∀ (gfw gwf : Query → List Int) (pwCheckNum : Nat) (today : String)
       (args : Args) (answer : String) (wf_mode skip_pw : Bool),
       idsTruthy args.fw_id = true →
       1 ≤ boolSum [strTruthy args.name, strTruthy args.state, args.query.isSome] →
       parse_helper gfw gwf pwCheckNum today args answer wf_mode skip_pw
         = Except.error (PyErr.valueError "Cannot specify both fw_id and name/state/query)")) ∧
    (∀ (gfw gwf : Query → List Int) (pwCheckNum : Nat) (today : String)
       (args : Args) (answer : String),
       idsTruthy args.fw_id = true →
       1 ≤ boolSum [strTruthy args.name, strTruthy args.state, args.query.isSome] →
       rerun_fws gfw gwf pwCheckNum today args answer
         = Except.error (PyErr.valueError "Cannot specify both fw_id and name/state/query)")) ∧
    (∀ (db : List FwDoc) (evalQ : Query → FwDoc → Bool)
       (fromQid : String → List Int) (getFwById : Int → FwDoc) (args : FwArgs),
       1 < boolSum [idsTruthy args.fw_id, strTruthy args.name,
         strTruthy args.state, args.query.isSome] →
       get_fws_list db evalQ fromQid getFwById args
         = Except.error (PyErr.valueError "Please specify exactly one of (fw_id, name, state, query)")) ∧
    (∀ (db : List WfDoc) (evalQW : Query → WfDoc → Bool)
       (summary : Int → String → List (String × PyVal)) (args : WfArgs),
       1 < boolSum [idsTruthy args.fw_id, strTruthy args.name,
         strTruthy args.state, args.query.isSome] →
       get_wfs_list db evalQW summary args
         = Except.error (PyErr.valueError "Please specify exactly one of (fw_id, name, state, query)")) := by
  refine ⟨?_, ?_, ?_, ?_⟩
  · intro gfw gwf pwCheckNum today args answer wf_mode skip_pw h1 h2
    exact parse_helper_conflict h1 h2 gfw gwf pwCheckNum today answer wf_mode skip_pw
  · intro gfw gwf pwCheckNum today args answer h1 h2
    unfold rerun_fws
    exact parse_helper_conflict h1 h2 gfw gwf pwCheckNum today answer false false
  · intro db evalQ fromQid getFwById args h
    unfold get_fws_list
    simp [h]
  · intro db evalQW summary args h
    unfold get_wfs_list
    simp [h]

/-- C3 witness: --fw_id 1 together with --name x is rejected by parse_helper. -/
theorem c3_ambiguous_selector_witness :
    idsTruthy argsConflict.fw_id = true ∧
    parse_helper noIds noIds 5 "t" argsConflict "a" false false
      = Except.error (PyErr.valueError "Cannot specify both fw_id and name/state/query)") :=
  ⟨by decide,
   c3_ambiguous_selector.1 noIds noIds 5 "t" argsConflict "a" false false
     (by decide) (by decide)⟩

/-- C6 counterexample: the claim says every non-Y answer yields a ValueError,
but the empty answer (the user just pressing enter) makes input(...)[0] raise
an IndexError instead — still without calling lp.reset, but with the wrong
exception type. -/
theorem c6_counterexample :
    reset none "" "2026-10-12" = Except.error PyErr.indexError ∧
    PyErr.indexError ≠ PyErr.valueError "Operation aborted by user." :=
  ⟨rfl, by decide⟩

/-- C6 (amended): reset without a password prompts; a nonempty answer not
beginning with Y or y raises ValueError (Operation aborted by user.) and an
empty answer raises IndexError — in both cases the command errors out before
lp.reset, so the database is untouched on the abort path. -/
theorem c6_reset_abort_amended :
    (∀ (answer today : String) (c : Char) (rest : List Char),
       answer.data = c :: rest → c.toUpper ≠ 'Y' →
       reset none answer today
         = Except.error (PyErr.valueError "Operation aborted by user.")) ∧
    (∀ today : String, reset none "" today = Except.error PyErr.indexError) := by
  constructor
  · intro answer today c rest hans hc
    unfold reset
    rw [hans]
    simp [strTruthy, hc]
  · intro today
    rfl

/-- C6 witness for the amended theorem: the answer n aborts with ValueError. -/
theorem c6_reset_abort_witness :
    reset none "n" "2026-10-12"
      = Except.error (PyErr.valueError "Operation aborted by user.") :=
  c6_reset_abort_amended.1 "n" "2026-10-12" 'n' [] rfl (by decide)

/-- C7: a selection of at most PW_CHECK_NUM ids, and any selection under
skip_pw=true, passes pw_check unchanged — for every password (including none,
so args.password is never required) and every interactive answer (so no
prompt can influence the outcome) — and track_fws selects with skip_pw=true. -/
theorem c7_gate_bypass :
    (∀ (pwCheckNum : Nat) (today : String) (ids : List Int)
       (password : Option String) (answer : String),
       ids.length ≤ pwCheckNum →
       pw_check pwCheckNum today ids password answer false = Except.ok ids) ∧
    (∀ (pwCheckNum : Nat) (today : String) (ids : List Int)
       (password : Option String) (answer : String),
       pw_check pwCheckNum today ids password answer true = Except.ok ids) ∧
    (∀ (gfw gwf : Query → List Int) (pwCheckNum : Nat) (today : String)
       (args : Args) (answer : String),
       track_fws_select gfw gwf pwCheckNum today args answer
         = parse_helper gfw gwf pwCheckNum today args answer false true) :=
  ⟨fun _pwCheckNum today _ids password answer h =>
     pw_check_small h today password answer false,
   fun pwCheckNum today ids password answer =>
     pw_check_skip pwCheckNum today ids password answer,
   fun _ _ _ _ _ _ => rfl⟩

/-- C7 witness: two ids against threshold five pass untouched with no
password. -/
theorem c7_gate_bypass_witness :
    ([1, 2] : List Int).length ≤ 5 ∧
    pw_check 5 "2026-10-12" [1, 2] none "whatever" false = Except.ok [1, 2] :=
  ⟨by decide,
   c7_gate_bypass.1 5 "2026-10-12" [1, 2] none "whatever" (by decide)⟩

/-- Helper: looking up a key in the overwrite branch of dictSet yields the new
value. -/
theorem lookup_map_set {t : List (String × PyVal)} {k : String} (v : PyVal)
    (h : t.any (fun kv => kv.1 == k) = true) :
    (t.map (fun kv => if kv.1 == k then (k, v) else kv)).lookup k = some v := by
  induction t with
  | nil => simp at h
  | cons a t ih =>
    obtain ⟨a1, a2⟩ := a
    by_cases ha : a1 = k
    · subst ha
      have h1 : (((a1, a2) :: t).map (fun kv => if kv.1 == a1 then (a1, v) else kv))
          = (a1, v) :: (t.map (fun kv => if kv.1 == a1 then (a1, v) else kv)) := by
        simp
      rw [h1]
      have h2 : (a1 == a1) = true := by simp
      simp [List.lookup, h2]
    · have ha' : (a1 == k) = false := by simp [ha]
      have ht : t.any (fun kv => kv.1 == k) = true := by
        simp only [List.any_cons, ha', Bool.false_or] at h
        exact h
      have hk : (k == a1) = false := by
        simp only [beq_eq_false_iff_ne, ne_eq]
        intro hkk
        exact ha hkk.symm
      have hcond : ¬((a1, a2).1 == k) = true := by simp [ha']
      have h1 : (((a1, a2) :: t).map (fun kv => if kv.1 == k then (k, v) else kv))
          = (a1, a2) :: (t.map (fun kv => if kv.1 == k then (k, v) else kv)) := by
        simp only [List.map_cons, if_neg hcond]
      rw [h1]
      have h2 : List.lookup k ((a1, a2) :: (t.map (fun kv => if kv.1 == k then (k, v) else kv)))
          = List.lookup k (t.map (fun kv => if kv.1 == k then (k, v) else kv)) := by
        simp [List.lookup, hk]
      rw [h2]
      exact ih ht

/-- Helper: looking up a key absent from d in d ++ [(k, v)] yields v. -/
theorem lookup_append_new {d : List (String × PyVal)} {k : String} (v : PyVal)
    (h : d.any (fun kv => kv.1 == k) = false) :
    (d ++ [(k, v)]).lookup k = some v := by
  induction d with
  | nil => simp [List.lookup]
  | cons a t ih =>
    obtain ⟨a1, a2⟩ := a
    rw [List.any_cons] at h
    obtain ⟨h1, h2⟩ := Bool.or_eq_false_iff.mp h
    have hk : (k == a1) = false := by
      simp only [beq_eq_false_iff_ne, ne_eq]
      intro hkk
      rw [beq_eq_false_iff_ne] at h1
      exact h1 hkk.symm
    have h3 : List.lookup k (((a1, a2) :: t) ++ [(k, v)])
        = List.lookup k (t ++ [(k, v)]) := by
      simp [List.lookup, hk]
    rw [h3]
    exact ih h2

/-- Helper: dictSet really overwrites: the stored value at the assigned key is
the new one. -/
theorem lookup_dictSet (d : List (String × PyVal)) (k : String) (v : PyVal) :
    (dictSet d k v).lookup k = some v := by
  unfold dictSet
  cases h : d.any (fun kv => kv.1 == k) with
  | true =>
    rw [if_pos rfl]
    exact lookup_map_set v h
  | false =>
    rw [if_neg (by simp)]
    exact lookup_append_new v h

/-- C9: with no fw_id, parse_helper accepts --query, --name and --state
together: it builds the ast-parsed query dict with its name entry overwritten
by --name and its state entry overwritten by --state, and passes exactly that
combined dict to get_fw_ids (fw mode) or get_wf_ids (wf mode); dictSet is a
genuine key overwrite. -/
theorem c9_combined_query :
    (∀ (gfw gwf : Query → List Int) (pwCheckNum : Nat) (today : String)
       (q : Query) (n s : String) (password : Option String) (answer : String)
       (skip_pw : Bool),
       n ≠ "" → s ≠ "" →
       parse_helper gfw gwf pwCheckNum today ⟨none, some n, some s, some q, password⟩
           answer false skip_pw
         = pw_check pwCheckNum today
             (gfw (dictSet (dictSet q "name" (PyVal.str n)) "state" (PyVal.str s)))
             password answer skip_pw) ∧
    (∀ (gfw gwf : Query → List Int) (pwCheckNum : Nat) (today : String)
       (q : Query) (n s : String) (password : Option String) (answer : String)
       (skip_pw : Bool),
       n ≠ "" → s ≠ "" →
       parse_helper gfw gwf pwCheckNum today ⟨none, some n, some s, some q, password⟩
           answer true skip_pw
         = pw_check pwCheckNum today
             (gwf (dictSet (dictSet q "name" (PyVal.str n)) "state" (PyVal.str s)))
             password answer skip_pw) ∧
    (∀ (d : List (String × PyVal)) (k : String) (v : PyVal),
       (dictSet d k v).lookup k = some v) := by
  refine ⟨?_, ?_, fun d k v => lookup_dictSet d k v⟩
  · intro gfw gwf pwCheckNum today q n s password answer skip_pw hn hs
    unfold parse_helper
    simp [idsTruthy, strTruthy, hn, hs]
  · intro gfw gwf pwCheckNum today q n s password answer skip_pw hn hs
    unfold parse_helper
    simp [idsTruthy, strTruthy, hn, hs]

/-- C9 witness: name x and state READY overwrite the parsed query dict and the
combined dict reaches get_fw_ids. -/
theorem c9_combined_query_witness :
    ("x" : String) ≠ "" ∧ ("READY" : String) ≠ "" ∧
    parse_helper noIds noIds 5 "t"
        ⟨none, some "x", some "READY", some [("name", PyVal.str "old")], none⟩
        "a" false true
      = pw_check 5 "t"
          (noIds (dictSet (dictSet [("name", PyVal.str "old")] "name" (PyVal.str "x"))
            "state" (PyVal.str "READY")))
          none "a" true :=
  ⟨by decide, by decide,
   c9_combined_query.1 noIds noIds 5 "t" [("name", PyVal.str "old")] "x" "READY"
     none "a" true (by decide) (by decide)⟩

/-- Helper: with pairwise-distinct launch ids, looking up a member record by
its launch id finds exactly that record. -/
theorem find_self_offline {runs : List OfflineRun}
    (hnd : runs.Pairwise (fun a b => a.launch_id ≠ b.launch_id)) {r : OfflineRun}
    (hr : r ∈ runs) :
    runs.find? (fun x => x.launch_id == r.launch_id) = some r := by
  induction runs with
  | nil => simp at hr
  | cons a t ih =>
    rw [List.pairwise_cons] at hnd
    obtain ⟨hhead, htail⟩ := hnd
    rcases List.mem_cons.mp hr with h | h
    · subst h
      rw [List.find?_cons_of_pos _ (by simp)]
    · have hne : a.launch_id ≠ r.launch_id := hhead r h
      rw [List.find?_cons_of_neg _ (by simp [hne])]
      exact ih htail h

/-- Helper: with ignore_errors=true the recovery loop never aborts and appends
exactly the fw_ids of the bad records, in order. -/
theorem recover_loop_ignore {runs : List OfflineRun}
    (hnd : runs.Pairwise (fun a b => a.launch_id ≠ b.launch_id)) :
    ∀ l : List OfflineRun, (∀ r ∈ l, r ∈ runs) → ∀ acc : List Int,
      recover_offline_loop runs true l acc
        = Except.ok (acc ++ (l.filter (fun r => !r.good)).map (fun r => r.fw_id)) := by
  intro l
  induction l with
  | nil =>
    intro _ acc
    simp [recover_offline_loop]
  | cons r rest ih =>
    intro hmem acc
    have hr : r ∈ runs := hmem r (List.mem_cons_self r rest)
    have hrest : ∀ x ∈ rest, x ∈ runs := fun x hx => hmem x (List.mem_cons_of_mem r hx)
    have hfind := find_self_offline hnd hr
    simp only [recover_offline_loop, recover_offline_lp, hfind]
    cases hg : r.good with
    | true =>
      simp only [if_pos rfl]
      rw [ih hrest acc]
      simp [List.filter_cons, hg]
    | false =>
      simp only [if_neg Bool.false_ne_true, if_pos rfl, if_true]
      rw [ih hrest (acc ++ [r.fw_id])]
      simp [List.filter_cons, hg]

/-- C4: with ignore_errors=true the CLI recover_offline processes every
pending offline launch (completed=False, deprecated=False), continues past
every bad record, and reports exactly the fw_ids of the failed recoveries in
the failure list. -/
theorem c4_recover_ignore_errors :
    ∀ runs : List OfflineRun,
      runs.Pairwise (fun a b => a.launch_id ≠ b.launch_id) →
      recover_offline runs true
        = Except.ok (((pendingRuns runs).filter (fun r => !r.good)).map
            (fun r => r.fw_id)) := by
  intro runs hnd
  unfold recover_offline
  rw [recover_loop_ignore hnd (pendingRuns runs)
    (fun r hr => List.mem_of_mem_filter hr) []]
  simp

/-- C4 witness: of the five offline records, pending launches 2 and 4 have bad
records; both fw_ids 12 and 14 are reported and the good and completed
records do not block the batch. -/
theorem c4_recover_witness :
    runsC4.Pairwise (fun a b => a.launch_id ≠ b.launch_id) ∧
    recover_offline runsC4 true = Except.ok [12, 14] := by
  constructor
  · decide
  · exact c4_recover_ignore_errors runsC4 (by decide)

/-- Helper: applySort permutes its input. -/
theorem applySort_perm {α : Type} (key : SortKey → α → Nat)
    (sort : Option (SortKey × Int)) (m : List α) :
    List.Perm (applySort key sort m) m := by
  cases sort with
  | none => exact List.Perm.refl m
  | some p =>
    obtain ⟨k, dir⟩ := p
    simp only [applySort]
    by_cases hd : dir = ASCENDING
    · rw [if_pos hd]
      exact List.mergeSort_perm m _
    · rw [if_neg hd]
      exact List.mergeSort_perm m _

/-- Helper: the ascending branch of applySort sorts the key upward. -/
theorem applySort_asc_sorted {α : Type} (key : SortKey → α → Nat) (k : SortKey)
    (m : List α) :
    List.Pairwise (fun a b => key k a ≤ key k b)
      (applySort key (some (k, ASCENDING)) m) := by
  have h := @List.sorted_mergeSort α (fun a b => decide (key k a ≤ key k b))
    (fun a b c hab hbc => by
      simp only [decide_eq_true_eq] at *
      omega)
    (fun a b => by
      simp only [Bool.or_eq_true, decide_eq_true_eq]
      omega)
    m
  have h2 : applySort key (some (k, ASCENDING)) m
      = m.mergeSort (fun a b => decide (key k a ≤ key k b)) := by
    simp [applySort]
  rw [h2]
  exact h.imp (fun hab => by simpa using hab)

/-- Helper: the descending branch of applySort sorts the key downward. -/
theorem applySort_desc_sorted {α : Type} (key : SortKey → α → Nat) (k : SortKey)
    (m : List α) :
    List.Pairwise (fun a b => key k b ≤ key k a)
      (applySort key (some (k, DESCENDING)) m) := by
  have h := @List.sorted_mergeSort α (fun a b => decide (key k b ≤ key k a))
    (fun a b c hab hbc => by
      simp only [decide_eq_true_eq] at *
      omega)
    (fun a b => by
      simp only [Bool.or_eq_true, decide_eq_true_eq]
      omega)
    m
  have h2 : applySort key (some (k, DESCENDING)) m
      = m.mergeSort (fun a b => decide (key k b ≤ key k a)) := by
    simp [applySort, ASCENDING, DESCENDING]
  rw [h2]
  exact h.imp (fun hab => by simpa using hab)

/-- C5: the sort key choices of get_fws/get_wfs are restricted to
created_on/updated_on; --sort builds an ascending and --rsort a descending
single-key sort (with --sort taking precedence); the id lists returned by the
modelled get_fw_ids and get_wf_ids come from a permutation of the matching
documents sorted on that key in the requested direction, capped by the limit;
and the default limit 0 returns all matches. -/
theorem c5_sort_and_cap :
    (∀ (s : String) (k : SortKey), sortChoice s = some k →
       s = "created_on" ∨ s = "updated_on") ∧
    (∀ (k : SortKey) (r : Option SortKey), buildSort (some k) r = some (k, ASCENDING)) ∧
    (∀ k : SortKey, buildSort none (some k) = some (k, DESCENDING)) ∧
    buildSort none none = none ∧
    (∀ (db : List FwDoc) (evalQ : Query → FwDoc → Bool) (query : Option Query)
       (k : SortKey) (limit : Nat),
       ∃ l : List FwDoc, List.Perm l (matchedDocs evalQ db query) ∧
         List.Pairwise (fun a b => fwKey k a ≤ fwKey k b) l ∧
         get_fw_ids db evalQ query (some (k, ASCENDING)) limit
           = (if limit = 0 then l else l.take limit).map (fun d => d.fw_id)) ∧
    (∀ (db : List FwDoc) (evalQ : Query → FwDoc → Bool) (query : Option Query)
       (k : SortKey) (limit : Nat),
       ∃ l : List FwDoc, List.Perm l (matchedDocs evalQ db query) ∧
         List.Pairwise (fun a b => fwKey k b ≤ fwKey k a) l ∧
         get_fw_ids db evalQ query (some (k, DESCENDING)) limit
           = (if limit = 0 then l else l.take limit).map (fun d => d.fw_id)) ∧
    (∀ (db : List FwDoc) (evalQ : Query → FwDoc → Bool) (query : Option Query)
       (sort : Option (SortKey × Int)),
       (get_fw_ids db evalQ query sort 0).length = (matchedDocs evalQ db query).length) ∧
    (∀ (db : List WfDoc) (evalQW : Query → WfDoc → Bool) (query : Option Query)
       (k : SortKey) (limit : Nat),
       ∃ l : List WfDoc, List.Perm l (matchedDocs evalQW db query) ∧
         List.Pairwise (fun a b => wfKey k a ≤ wfKey k b) l ∧
         get_wf_ids db evalQW query (some (k, ASCENDING)) limit
           = (if limit = 0 then l else l.take limit).map (fun d => d.wf_id)) ∧
    (∀ (db : List WfDoc) (evalQW : Query → WfDoc → Bool) (query : Option Query)
       (sort : Option (SortKey × Int)),
       (get_wf_ids db evalQW query sort 0).length = (matchedDocs evalQW db query).length) := by
  refine ⟨?_, fun _ _ => rfl, fun _ => rfl, rfl, ?_, ?_, ?_, ?_, ?_⟩
  · intro s k h
    by_cases h1 : s = "created_on"
    · exact Or.inl h1
    · by_cases h2 : s = "updated_on"
      · exact Or.inr h2
      · exfalso
        unfold sortChoice at h
        rw [if_neg (by simp [h1]), if_neg (by simp [h2])] at h
        exact Option.noConfusion h
  · intro db evalQ query k limit
    exact ⟨applySort fwKey (some (k, ASCENDING)) (matchedDocs evalQ db query),
      applySort_perm fwKey _ _, applySort_asc_sorted fwKey k _, rfl⟩
  · intro db evalQ query k limit
    exact ⟨applySort fwKey (some (k, DESCENDING)) (matchedDocs evalQ db query),
      applySort_perm fwKey _ _, applySort_desc_sorted fwKey k _, rfl⟩
  · intro db evalQ query sort
    unfold get_fw_ids
    simp only [if_pos rfl, List.length_map]
    exact (applySort_perm fwKey sort (matchedDocs evalQ db query)).length_eq
  · intro db evalQW query k limit
    exact ⟨applySort wfKey (some (k, ASCENDING)) (matchedDocs evalQW db query),
      applySort_perm wfKey _ _, applySort_asc_sorted wfKey k _, rfl⟩
  · intro db evalQW query sort
    unfold get_wf_ids
    simp only [if_pos rfl, List.length_map]
    exact (applySort_perm wfKey sort (matchedDocs evalQW db query)).length_eq

/-- C5 witness: the string created_on is an accepted sort choice, and it is
one of the two permitted keys. -/
theorem c5_sort_witness :
    sortChoice "created_on" = some SortKey.created_on ∧
    ("created_on" = "created_on" ∨ "created_on" = "updated_on") :=
  ⟨rfl, c5_sort_and_cap.1 "created_on" SortKey.created_on rfl⟩

/-- C8: get_children never reads its max_depth parameter — for every links
mapping, start node and recursion bound, any two max_depth values produce the
same nested structure — and consequently get_links (which hard-codes depth 3)
prints output independent of the --depth option. -/
theorem c8_depth_ignored :
    (∀ (fuel : Nat) (links : List (Int × List Int)) (start : Int) (d1 d2 : Int),
       get_children fuel links start d1 = get_children fuel links start d2) ∧
    (∀ (fuel : Nat) (wfIds : List Int) (linksOf : Int → List (Int × List Int))
       (d1 d2 : Int),
       get_links fuel wfIds linksOf d1 = get_links fuel wfIds linksOf d2) := by
  constructor
  · intro fuel
    induction fuel with
    | zero =>
      intro links start d1 d2
      rfl
    | succ n ih =>
      intro links start d1 d2
      show gcBuild (fun i => get_children n links i d1) start links
          = gcBuild (fun i => get_children n links i d2) start links
      have hfun : (fun i => get_children n links i d1)
          = (fun i => get_children n links i d2) :=
        funext fun i => ih links i d1 d2
      rw [hfun]
  · intro fuel wfIds linksOf d1 d2
    rfl

/-- C10: the printed values of get_fws and get_wfs are the singleton collapse
of the assembled result list: a one-element list prints as its bare element,
any other length prints as the list itself. -/
theorem c10_singleton_collapse :
    (∀ (db : List FwDoc) (evalQ : Query → FwDoc → Bool) (fromQid : String → List Int)
       (getFwById : Int → FwDoc) (args : FwArgs),
       get_fws db evalQ fromQid getFwById args
         = (get_fws_list db evalQ fromQid getFwById args).map collapse) ∧
    (∀ (db : List WfDoc) (evalQW : Query → WfDoc → Bool)
       (summary : Int → String → List (String × PyVal)) (args : WfArgs),
       get_wfs db evalQW summary args
         = (get_wfs_list db evalQW summary args).map collapse) ∧
    (∀ x : PyVal, collapse [x] = PyOut.one x) ∧
    (∀ l : List PyVal, l.length ≠ 1 → collapse l = PyOut.many l) := by
  refine ⟨fun _ _ _ _ _ => rfl, fun _ _ _ _ => rfl, fun _ => rfl, ?_⟩
  intro l h
  cases l with
  | nil => rfl
  | cons a t =>
    cases t with
    | nil => exact absurd rfl h
    | cons b t2 => rfl

/-- C10 witness: a singleton collapses to its bare element, the empty list
stays a list. -/
theorem c10_singleton_collapse_witness :
    collapse [PyVal.int 7] = PyOut.one (PyVal.int 7) ∧
    ([] : List PyVal).length ≠ 1 ∧ collapse [] = PyOut.many [] :=
  ⟨c10_singleton_collapse.2.2.1 (PyVal.int 7), by decide,
   c10_singleton_collapse.2.2.2 [] (by decide)⟩

end LpadRun
